import Mathlib

/-!
Verification of the sats4duesseldorf form-handler worker.

The development shallowly embeds the Cloudflare worker (worker/src/index.js)
and its hardened admin module (the audited admin handler with the
timing-safe comparison and the submission-id format gate) into Lean.
Strings are modelled as Lean strings, JS objects with string values as
ordered association lists, JSON values as an inductive, and the key-value
store as a function from structured keys to optional JSON values.  Each
handler returns its response together with the list of key-value-store
operations it performs, so frame properties about the store are provable.
External collaborators (the platform clock, Math.random, the URL parser,
Date parsing, the GitHub API, key-value-store availability) enter as
explicit oracle parameters.
-/

namespace S4D

/-! ## JS string primitives -/

/-- JS `String.prototype.toLowerCase`, on char lists (ASCII case mapping). -/
def jsToLowerChars (l : List Char) : List Char := l.map Char.toLower

/-- JS `String.prototype.trim`, on char lists: drop leading and trailing
whitespace. -/
def jsTrimChars (l : List Char) : List Char :=
  ((l.dropWhile Char.isWhitespace).reverse.dropWhile Char.isWhitespace).reverse

/-- Whether a char list starts with the given pattern
(JS `String.prototype.startsWith`). -/
def listStartsWith : List Char → List Char → Bool
  | _, [] => true
  | [], _ :: _ => false
  | c :: cs, p :: ps => c == p && listStartsWith cs ps

/-- `origin.startsWith(allowed.trim())` over a JS array of allowed prefixes
(`allowedList.some(...)`). -/
def startsWithAny (origin : String) (allowed : List String) : Bool :=
  allowed.any (fun a => listStartsWith origin.data (jsTrimChars a.data))

/-- `s.split(',')` on char lists, accumulating the current segment. -/
def splitCommaAux : List Char → List Char → List String
  | [], acc => [String.mk acc.reverse]
  | c :: cs, acc =>
    if c = ',' then String.mk acc.reverse :: splitCommaAux cs []
    else splitCommaAux cs (c :: acc)

/-- Splitting a comma-separated dev-origin env var, `s.split(',')`. -/
def splitDevOrigins (o : Option String) : List String :=
  match o with
  | none => []
  | some s => splitCommaAux s.data []

/-! ## JSON values and responses -/

/-- JSON values, as produced by the worker's `JSON.stringify` call sites and
stored in the key-value store. -/
inductive JVal where
  | str (s : String)
  | num (n : Int)
  | jbool (b : Bool)
  | jnull
  | arr (xs : List JVal)
  | obj (fields : List (String × JVal))

/-- A response body: plain text, JSON, or empty (`null` body). -/
inductive RespBody where
  | text (s : String)
  | json (j : JVal)
  | empty

/-- The JSON error body shape used throughout: an object with a single
`error` field. -/
def errObj (msg : String) : RespBody :=
  .json (.obj [("error", .str msg)])

/-! ## Key-value store keys and effects

The source builds keys by string templates with the fixed prefixes
`submission:`, `audit:` and `ratelimit:`; these namespaces are disjoint, so
keys are modelled structurally. -/

/-- A key of the `PRIVATE_DATA` key-value store. -/
inductive KVKey where
  | submission (id : String)
  | audit (suffix : String)
  | ratelimit (ip : String)

/-- One operation against the key-value store. -/
inductive KVEff where
  | get (k : KVKey)
  | put (k : KVKey)
  | del (k : KVKey)

/-- The store contents, as seen by `get`. -/
abbrev Store := KVKey → Option JVal

/-! ## Submission-id format check

Embeds `SUBMISSION_ID_REGEX = /^SUB-[A-Z0-9]+-[A-Z0-9]+$/` as a
deterministic char-list matcher.  `[A-Z0-9]` excludes `-`, so the regex
match is equivalent to: literal `SUB-`, one or more base36-uppercase chars,
a `-`, one or more base36-uppercase chars, end. -/

/-- The char class `[A-Z0-9]`. -/
def isB36U (c : Char) : Bool :=
  ('A' ≤ c && c ≤ 'Z') || ('0' ≤ c && c ≤ '9')

/-- Rest of the second `[A-Z0-9]+` segment: zero or more class chars to the
end. -/
def seg2Rest : List Char → Bool
  | [] => true
  | c :: cs => isB36U c && seg2Rest cs

/-- The second `[A-Z0-9]+` segment: at least one class char, then to the
end. -/
def segSecond : List Char → Bool
  | [] => false
  | c :: cs => isB36U c && seg2Rest cs

/-- Rest of the first `[A-Z0-9]+` segment up to the separating `-`. -/
def segFirstRest : List Char → Bool
  | [] => false
  | c :: cs => if c = '-' then segSecond cs else isB36U c && segFirstRest cs

/-- The first `[A-Z0-9]+` segment followed by `-` and the second segment. -/
def segFirst : List Char → Bool
  | [] => false
  | c :: cs => isB36U c && segFirstRest cs

/-- `SUBMISSION_ID_REGEX.test(s)`. -/
def subIdOk (s : String) : Bool :=
  match s.data with
  | 'S' :: 'U' :: 'B' :: '-' :: rest => segFirst rest
  | _ => false

/-! ## Admin module (the hardened admin handler) -/

/-- `ADMIN_ALLOWED_ORIGINS`. -/
def ADMIN_ALLOWED_ORIGINS : List String :=
  ["https://satoshiinberlin.github.io"]

/-- Admin-relevant configuration: `ADMIN_API_TOKEN` and
`ADMIN_ALLOWED_ORIGINS_DEV` (absent secrets are `none`). -/
structure AdminEnv where
  adminApiToken : Option String
  adminDevOrigins : Option String

/-- An admin request, reduced to the fields the handler consults.
`querySubmissionId` is `url.searchParams.get('submission_id')`;
`body` is the parsed JSON body of `mark-paid` (`none` = parse failure),
reduced to its `submission_id` string (absent/falsy = `none`) and the
truthiness of `delete_data`. -/
structure AdminReq where
  path : String
  method : String
  origin : Option String
  authHeader : Option String
  querySubmissionId : Option String
  body : Option (Option String × Bool)

/--
`timingSafeEqual(a, b)` from the admin module, including its reassignment
of `b` when the lengths differ:

the source sets `b = a` when `a.length !== b.length`, XOR-folds the char
codes, and then returns `result === 0 && a.length === b.length` — where `b`
is the possibly-reassigned variable.  Char codes are `charCodeAt` UTF-16
units, which agree with code points on the BMP strings modelled here.
-/
def timingSafeEqual (a b : String) : Bool :=
  let b2 := if a.data.length ≠ b.data.length then a else b
  let result := (List.zipWith (fun x y => x.toNat ^^^ y.toNat) a.data b2.data).foldl
    (fun r v => r ||| v) 0
  result == 0 && a.data.length == b2.data.length

/-- `env.ADMIN_API_TOKEN && env.ADMIN_API_TOKEN.length >= 16`. -/
def isConfigValid (tok : Option String) : Bool :=
  match tok with
  | none => false
  | some t => decide (16 ≤ t.data.length)

/-- An admin response: status and body (headers elided). -/
structure AdminResp where
  status : Nat
  body : RespBody

/-- `getContactInfo(url, env, clientIP)`: missing/falsy id → 400, bad format
→ 400 before any store access, then a `get` of the submission key, 404 on
miss, 200 with the stored record verbatim on hit; hit and miss both append
an audit-log entry. -/
def getContactInfo (sid : Option String) (store : Store) (auditSfx : String) :
    AdminResp × List KVEff :=
  let sv := sid.getD ""
  if sv = "" then
    (⟨400, errObj "Missing submission_id parameter"⟩, [])
  else if !subIdOk sv then
    (⟨400, errObj "Invalid submission_id format"⟩, [])
  else
    match store (.submission sv) with
    | none =>
        (⟨404, errObj "Submission not found or expired"⟩,
          [.get (.submission sv), .put (.audit auditSfx)])
    | some d =>
        (⟨200, .json d⟩, [.get (.submission sv), .put (.audit auditSfx)])

/-- The success body of `mark-paid`. -/
def markPaidOkBody (msg : String) : RespBody :=
  .json (.obj [("success", .jbool true), ("message", .str msg)])

/-- `markAsPaid(request, env, clientIP)`: invalid JSON body → 400, missing
or falsy `submission_id` → 400, bad format → 400 before any store access;
otherwise `get` the record, 404 on miss, then either delete the key or
rewrite it with the paid flags (value updates are not tracked in the
effect list). -/
def markAsPaid (body : Option (Option String × Bool)) (store : Store)
    (auditSfx : String) : AdminResp × List KVEff :=
  match body with
  | none => (⟨400, errObj "Invalid JSON body"⟩, [])
  | some (sid, deleteData) =>
    let sv := sid.getD ""
    if sv = "" then
      (⟨400, errObj "Missing submission_id"⟩, [])
    else if !subIdOk sv then
      (⟨400, errObj "Invalid submission_id format"⟩, [])
    else
      match store (.submission sv) with
      | none =>
          (⟨404, errObj "Submission not found"⟩,
            [.get (.submission sv), .put (.audit auditSfx)])
      | some _ =>
          if deleteData then
            (⟨200, markPaidOkBody "Marked as paid and data deleted"⟩,
              [.get (.submission sv), .del (.submission sv), .put (.audit auditSfx)])
          else
            (⟨200, markPaidOkBody "Marked as paid"⟩,
              [.get (.submission sv), .put (.submission sv), .put (.audit auditSfx)])

/--
`handleAdminRequest(request, env)` of the hardened admin module: origin
gate (blocking only a present, non-allow-listed origin), then the Bearer
header check, then the collapsed credential validation
(`isConfigValid && timingSafeEqual(token, env.ADMIN_API_TOKEN)`), then
routing.  Every deny path appends one audit-log write.
-/
def handleAdminRequest (env : AdminEnv) (req : AdminReq) (store : Store)
    (auditSfx : String) : AdminResp × List KVEff :=
  let blockedOrigin :=
    match req.origin with
    | none => false
    | some o =>
        !(startsWithAny o (ADMIN_ALLOWED_ORIGINS ++ splitDevOrigins env.adminDevOrigins))
  if blockedOrigin then
    (⟨403, errObj "Invalid origin"⟩, [.put (.audit auditSfx)])
  else
    match req.authHeader with
    | none => (⟨401, errObj "Unauthorized"⟩, [.put (.audit auditSfx)])
    | some ah =>
      if !listStartsWith ah.data "Bearer ".data then
        (⟨401, errObj "Unauthorized"⟩, [.put (.audit auditSfx)])
      else
        let token := String.mk (ah.data.drop 7)
        let cfgOk := isConfigValid env.adminApiToken
        let tokOk := cfgOk && timingSafeEqual token (env.adminApiToken.getD "")
        if !tokOk then
          (⟨401, errObj "Unauthorized"⟩, [.put (.audit auditSfx)])
        else if req.path = "/admin/contact" && req.method = "GET" then
          getContactInfo req.querySubmissionId store auditSfx
        else if req.path = "/admin/mark-paid" && req.method = "POST" then
          markAsPaid req.body store auditSfx
        else
          (⟨404, errObj "Not found"⟩, [])

/-! ## Webhook: constants and form-data helpers -/

/-- `ALLOWED_ORIGINS` of the webhook surface. -/
def ALLOWED_ORIGINS : List String :=
  ["https://satoshiinberlin.github.io"]

/-- `RATE_LIMIT_WINDOW_MS = 60 * 60 * 1000`. -/
def RATE_LIMIT_WINDOW_MS : Int := 60 * 60 * 1000

/-- `RATE_LIMIT_MAX_REQUESTS = 10`. -/
def RATE_LIMIT_MAX_REQUESTS : Nat := 10

/-- `PRIVATE_FIELDS`. -/
def PRIVATE_FIELDS : List String := ["contact_method", "contact_value"]

/-- `CHECK_BASE_REQUIRED_FIELDS`. -/
def CHECK_BASE_REQUIRED_FIELDS : List String := ["location_id", "date_time"]

/-- `CHECK_NORMAL_REQUIRED_FIELDS`. -/
def CHECK_NORMAL_REQUIRED_FIELDS : List String := ["public_post_url"]

/-- `CHECK_CRITICAL_REQUIRED_FIELDS`. -/
def CHECK_CRITICAL_REQUIRED_FIELDS : List String := ["critical_evidence_url"]

/-- `NEW_LOCATION_REQUIRED_FIELDS`. -/
def NEW_LOCATION_REQUIRED_FIELDS : List String := ["name", "address", "category"]

/-- The extracted form data: an ordered mapping of field name to trimmed
string value, as produced by `extractFormFields` (JS object, keys unique). -/
abbrev FormData := List (String × String)

/-- `formData[k]` as an optional value. -/
def fdGet (fd : FormData) (k : String) : Option String :=
  List.lookup k fd

/-- JS truthiness of `formData[k]`: present and not the empty string. -/
def fdTruthy (fd : FormData) (k : String) : Bool :=
  (fdGet fd k).getD "" != ""

/-- JS `x || d` for an optional string field: the value unless absent or
empty. -/
def orDefault (v : Option String) (d : String) : String :=
  match v with
  | none => d
  | some s => if s = "" then d else s

/-! ## Rate limiter -/

/-- `Math.min(...timestamps)` for a non-empty list (the empty case is never
reached: the list length was just checked to be at least the maximum). -/
def jsMathMin (l : List Int) : Int :=
  match l with
  | [] => 0
  | x :: xs => xs.foldl min x

/-- `Math.ceil(a / 1000)` for an integer numerator. -/
def jsCeilDiv1000 (a : Int) : Int := -((-a).fdiv 1000)

/-- Outcome of one rate-limiter evaluation with a reachable store. -/
inductive RLCore where
  | reject (retryAfter : Int)
  | allow (newStored : List Int)
  deriving DecidableEq

/--
The limiter body given a successful store read (`storedRaw` is the parsed
`timestamps` array, `none` when no record exists): filter to the trailing
window, reject with the computed retry-after when already at the maximum,
otherwise append `now` and store the last `2 × max` entries
(`slice(-RATE_LIMIT_MAX_REQUESTS * 2)`).
-/
def rateLimitCore (storedRaw : Option (List Int)) (now : Int) : RLCore :=
  let timestamps := (storedRaw.getD []).filter (fun ts => now - ts < RATE_LIMIT_WINDOW_MS)
  if RATE_LIMIT_MAX_REQUESTS ≤ timestamps.length then
    .reject (jsCeilDiv1000 (jsMathMin timestamps + RATE_LIMIT_WINDOW_MS - now))
  else
    let ts2 := timestamps ++ [now]
    .allow (ts2.drop (ts2.length - RATE_LIMIT_MAX_REQUESTS * 2))

/-- The 429 body `error`/`message`/`retryAfter`. -/
def rateLimitBody (retryAfter : Int) : RespBody :=
  .json (.obj [("error", .str "Rate limit exceeded"),
    ("message", .str "Zu viele Einreichungen. Bitte warte eine Stunde."),
    ("retryAfter", .num retryAfter)])

/--
The whole `try { ... } catch (rateLimitError) { ... }` section of the
webhook: a failing store read throws before the limit check and is caught
(continue); a successful read either rejects with 429 or appends and
writes back, and a failing write is likewise caught after the write
attempt (continue).  `.1 = none` means the request proceeds.  `putFails`
cannot change the outcome, only the store's (untracked) contents.
-/
def rateLimitSection (getRes : Except Unit (Option (List Int))) (now : Int)
    (rlKey : KVKey) (putFails : Bool) : Option (Nat × RespBody) × List KVEff :=
  match getRes with
  | .error _ => (none, [.get rlKey])
  | .ok raw =>
    match rateLimitCore raw now with
    | .reject retryAfter => (some (429, rateLimitBody retryAfter), [.get rlKey])
    | .allow _ =>
        let _ := putFails
        (none, [.get rlKey, .put rlKey])

/-- Sequential requests from one client with no time advance: the observable
per-request results, threading the stored timestamp list (each write lands
before the next read). -/
inductive RLRes where
  | granted
  | rejected (retryAfter : Int)
  deriving DecidableEq

/-- Run `n` back-to-back requests through the limiter, starting from
`stored`. -/
def rlRun (stored : Option (List Int)) (now : Int) : Nat → List RLRes
  | 0 => []
  | n + 1 =>
    match rateLimitCore stored now with
    | .reject r => .rejected r :: rlRun stored now n
    | .allow ns => .granted :: rlRun (some ns) now n

/-! ## Structural and format validation -/

/-- Embeds the regex test `/^DE-BE-\d{5}$/` on `location_id`. -/
def locationIdFormatOk (s : String) : Bool :=
  match s.data with
  | 'D' :: 'E' :: '-' :: 'B' :: 'E' :: '-' :: rest =>
      rest.length == 5 && rest.all Char.isDigit
  | _ => false

/-- The 400 body for an id absent from a non-empty ledger cache. -/
def locNotFoundBody (locId : String) : RespBody :=
  .json (.obj [("error", .str "Location not found"),
    ("message", .str ("Location " ++ locId ++ " existiert nicht in der Datenbank."))])

/--
The two `location_id` checks of the webhook, in source order: when the
field is truthy and fails the format regex, reject; when it is truthy,
passes the regex, and the valid-id cache is non-empty but lacks it,
reject; otherwise no location-based rejection.  `validIds` is the set
returned by `fetchValidLocationIds`.
-/
def locationValidation (fd : FormData) (validIds : List String) :
    Option (Nat × RespBody) :=
  let locId := (fdGet fd "location_id").getD ""
  if fdTruthy fd "location_id" && !locationIdFormatOk locId then
    some (400, errObj "Invalid location ID format")
  else if fdTruthy fd "location_id" then
    if validIds.length > 0 && !validIds.contains locId then
      some (400, locNotFoundBody locId)
    else
      none
  else
    none

/-- The future-date check: `new Date(formData.date_time) > new Date()`.
`dateParse` is the platform date parser (`none` = `NaN`, for which the
comparison is false and the check passes). -/
def dateValidation (fd : FormData) (dateParse : String → Option Int) (now : Int) :
    Option (Nat × RespBody) :=
  if fdTruthy fd "date_time" then
    match dateParse ((fdGet fd "date_time").getD "") with
    | some t => if now < t then some (400, errObj "Date cannot be in the future") else none
    | none => none
  else
    none

/-- The fixed list of URL-typed fields. -/
def urlFieldsList : List String :=
  ["public_post_url", "receipt_proof_url", "payment_proof_url", "venue_photo_url",
   "website", "osm_url", "critical_evidence_url", "critical_post_url"]

/-- The URL-format loop: the first field that is truthy, not the literal
placeholder, and fails the platform URL parser `urlOk` rejects the
request, citing the field. -/
def urlValidation (fd : FormData) (urlOk : String → Bool) :
    Option (Nat × RespBody) :=
  urlFieldsList.findSome? (fun f =>
    match fdGet fd f with
    | none => none
    | some v =>
      if v ≠ "" && v ≠ "_nicht angegeben_" then
        if urlOk v then none else some (400, errObj ("Invalid URL in " ++ f))
      else
        none)

/-! ## Classification and privacy partition -/

/-- `NEW_LOCATION_REQUIRED_FIELDS.every(f => formData[f])`. -/
def isNewLocationOf (fd : FormData) : Bool :=
  NEW_LOCATION_REQUIRED_FIELDS.all (fdTruthy fd)

/-- `CHECK_BASE_REQUIRED_FIELDS.every(f => formData[f])`. -/
def hasCheckBaseFields (fd : FormData) : Bool :=
  CHECK_BASE_REQUIRED_FIELDS.all (fdTruthy fd)

/-- `formData.check_type === 'critical'`. -/
def isCriticalCheckOf (fd : FormData) : Bool :=
  fdGet fd "check_type" == some "critical"

/-- The check predicate: base fields plus the critical-evidence field for
critical checks, the public-post field otherwise. -/
def isCheckOf (fd : FormData) : Bool :=
  hasCheckBaseFields fd &&
    (if isCriticalCheckOf fd then
      CHECK_CRITICAL_REQUIRED_FIELDS.all (fdTruthy fd)
    else
      CHECK_NORMAL_REQUIRED_FIELDS.all (fdTruthy fd))

/-- The `for (const [key, value] of Object.entries(formData))` loop
splitting the mapping into `publicData` and `privateData` by membership of
the key in `PRIVATE_FIELDS`, preserving iteration order. -/
def partitionFields (fd : FormData) : FormData × FormData :=
  fd.foldl
    (fun acc kv =>
      if PRIVATE_FIELDS.contains kv.1 then (acc.1, acc.2 ++ [kv])
      else (acc.1 ++ [kv], acc.2))
    ([], [])

/-! ## SHA-256

`generateSubmitterId` calls the platform digest
`crypto.subtle.digest('SHA-256', data)`; the primitive is embedded here
(FIPS 180-4), on byte lists with `Nat` words reduced mod `2^32`. -/

/-- Truncation to a 32-bit word. -/
def w32 (x : Nat) : Nat := x % 4294967296

/-- Right-rotation of a 32-bit word. -/
def rotr32 (n x : Nat) : Nat := (x >>> n) ||| w32 (x <<< (32 - n))

/-- SHA-256 `Ch`. -/
def shaCh (x y z : Nat) : Nat := (x &&& y) ^^^ ((x ^^^ 4294967295) &&& z)

/-- SHA-256 `Maj`. -/
def shaMaj (x y z : Nat) : Nat := (x &&& y) ^^^ (x &&& z) ^^^ (y &&& z)

/-- SHA-256 `Σ0`. -/
def bigSigma0 (x : Nat) : Nat := rotr32 2 x ^^^ rotr32 13 x ^^^ rotr32 22 x

/-- SHA-256 `Σ1`. -/
def bigSigma1 (x : Nat) : Nat := rotr32 6 x ^^^ rotr32 11 x ^^^ rotr32 25 x

/-- SHA-256 `σ0`. -/
def smallSigma0 (x : Nat) : Nat := rotr32 7 x ^^^ rotr32 18 x ^^^ (x >>> 3)

/-- SHA-256 `σ1`. -/
def smallSigma1 (x : Nat) : Nat := rotr32 17 x ^^^ rotr32 19 x ^^^ (x >>> 10)

/-- The SHA-256 round constants. -/
def shaK : List Nat :=
  [1116352408, 1899447441, 3049323471, 3921009573, 961987163,
   1508970993, 2453635748, 2870763221, 3624381080, 310598401,
   607225278, 1426881987, 1925078388, 2162078206, 2614888103,
   3248222580, 3835390401, 4022224774, 264347078, 604807628,
   770255983, 1249150122, 1555081692, 1996064986, 2554220882,
   2821834349, 2952996808, 3210313671, 3336571891, 3584528711,
   113926993, 338241895, 666307205, 773529912, 1294757372,
   1396182291, 1695183700, 1986661051, 2177026350, 2456956037,
   2730485921, 2820302411, 3259730800, 3345764771, 3516065817,
   3600352804, 4094571909, 275423344, 430227734, 506948616,
   659060556, 883997877, 958139571, 1322822218, 1537002063,
   1747873779, 1955562222, 2024104815, 2227730452, 2361852424,
   2428436474, 2756734187, 3204031479, 3329325298]

/-- The eight 32-bit working values. -/
structure Sha8 where
  s0 : Nat
  s1 : Nat
  s2 : Nat
  s3 : Nat
  s4 : Nat
  s5 : Nat
  s6 : Nat
  s7 : Nat

/-- The SHA-256 initial hash value. -/
def shaH0 : Sha8 :=
  ⟨1779033703, 3144134277, 1013904242, 2773480762,
   1359893119, 2600822924, 528734635, 1541459225⟩

/-- Big-endian 4-byte groups to 32-bit words. -/
def bytesToWords : List Nat → List Nat
  | b0 :: b1 :: b2 :: b3 :: rest => (((b0 * 256 + b1) * 256 + b2) * 256 + b3) :: bytesToWords rest
  | _ => []

/-- Extend the 16-word block to the 64-word message schedule (48 steps). -/
def extendW (w : List Nat) : Nat → List Nat
  | 0 => w
  | k + 1 =>
    extendW (w ++ [w32 (w.getD (w.length - 16) 0 + smallSigma0 (w.getD (w.length - 15) 0)
      + w.getD (w.length - 7) 0 + smallSigma1 (w.getD (w.length - 2) 0))]) k

/-- One compression round. -/
def shaRound (st : Sha8) (kw : Nat × Nat) : Sha8 :=
  let t1 := w32 (st.s7 + bigSigma1 st.s4 + shaCh st.s4 st.s5 st.s6 + kw.1 + kw.2)
  let t2 := w32 (bigSigma0 st.s0 + shaMaj st.s0 st.s1 st.s2)
  ⟨w32 (t1 + t2), st.s0, st.s1, st.s2, w32 (st.s3 + t1), st.s4, st.s5, st.s6⟩

/-- Word-wise addition of hash states mod `2^32`. -/
def addSha8 (x y : Sha8) : Sha8 :=
  ⟨w32 (x.s0 + y.s0), w32 (x.s1 + y.s1), w32 (x.s2 + y.s2), w32 (x.s3 + y.s3),
   w32 (x.s4 + y.s4), w32 (x.s5 + y.s5), w32 (x.s6 + y.s6), w32 (x.s7 + y.s7)⟩

/-- Compress one 64-byte chunk into the running hash. -/
def processChunk (h : Sha8) (chunk : List Nat) : Sha8 :=
  let w := extendW (bytesToWords chunk) 48
  addSha8 h (((shaK.zip w).foldl shaRound h))

/-- SHA-256 padding: `0x80`, zeros to 56 mod 64, then the bit length as a
64-bit big-endian integer. -/
def shaPad (msg : List Nat) : List Nat :=
  let len := msg.length
  let bitLen := len * 8
  msg ++ 128 :: List.replicate ((64 - (len + 9) % 64) % 64) 0 ++
    [bitLen / 2 ^ 56 % 256, bitLen / 2 ^ 48 % 256, bitLen / 2 ^ 40 % 256,
     bitLen / 2 ^ 32 % 256, bitLen / 2 ^ 24 % 256, bitLen / 2 ^ 16 % 256,
     bitLen / 2 ^ 8 % 256, bitLen % 256]

/-- Fold the padded message chunk by chunk. -/
def shaChunks (h : Sha8) : List Nat → Sha8
  | [] => h
  | x :: rest => shaChunks (processChunk h ((x :: rest).take 64)) ((x :: rest).drop 64)
  termination_by l => l.length
  decreasing_by simp [List.length_drop]; omega

/-- A 32-bit word as four big-endian bytes. -/
def wordBytes (w : Nat) : List Nat :=
  [w / 2 ^ 24 % 256, w / 2 ^ 16 % 256, w / 2 ^ 8 % 256, w % 256]

/-- The SHA-256 digest of a byte list, as the 32-byte list. -/
def sha256 (msg : List Nat) : List Nat :=
  let h := shaChunks shaH0 (shaPad msg)
  wordBytes h.s0 ++ wordBytes h.s1 ++ wordBytes h.s2 ++ wordBytes h.s3 ++
    wordBytes h.s4 ++ wordBytes h.s5 ++ wordBytes h.s6 ++ wordBytes h.s7

/-- UTF-8 encoding of one code point (the platform `TextEncoder`). -/
def utf8EncodeChar (c : Char) : List Nat :=
  let n := c.toNat
  if n < 128 then [n]
  else if n < 2048 then [192 + n / 64, 128 + n % 64]
  else if n < 65536 then [224 + n / 4096, 128 + (n / 64) % 64, 128 + n % 64]
  else [240 + n / 262144, 128 + (n / 4096) % 64, 128 + (n / 64) % 64, 128 + n % 64]

/-- `new TextEncoder().encode(s)`. -/
def utf8Encode (l : List Char) : List Nat :=
  (l.map utf8EncodeChar).flatten

/-! ## Pseudonymous id and submission id -/

/-- The hex alphabet of `Number.prototype.toString(16)`. -/
def hexDigits : List Char := "0123456789abcdef".data

/-- The digit char for a value below 16. -/
def hexDigitChar (d : Nat) : Char := hexDigits.getD d '0'

/-- `b.toString(16).padStart(2, '0')` for a byte. -/
def byteHexChars (b : Nat) : List Char := [hexDigitChar (b / 16), hexDigitChar (b % 16)]

/-- `hashArray.map(b => b.toString(16).padStart(2, '0')).join('')`. -/
def hashHexChars (bytes : List Nat) : List Char :=
  (bytes.map byteHexChars).flatten

/-- `generateSubmitterId(contactString)`:
`'USER-' + hashHex.substring(0, 12).toUpperCase()`. -/
def generateSubmitterId (contact : List Char) : List Char :=
  "USER-".data ++ ((hashHexChars (sha256 (utf8Encode contact))).take 12).map Char.toUpper

/-- The contact string for the id derivation:
```${contact_method}:${contact_value}`.toLowerCase().trim()``. -/
def contactStringChars (m v : List Char) : List Char :=
  jsTrimChars (jsToLowerChars (m ++ ':' :: v))

/-- End-to-end derivation from the raw payload contact fields: the Field
Extractor trims each field (`String(value).trim()`), and the webhook then
derives the id from the normalized concatenation. -/
def submitterIdOfSubmission (m v : String) : List Char :=
  generateSubmitterId (contactStringChars (jsTrimChars m.data) (jsTrimChars v.data))

/-- The base36 alphabet of `Number.prototype.toString(36)`. -/
def base36Digits : List Char := "0123456789abcdefghijklmnopqrstuvwxyz".data

/-- The digit char for a value below 36. -/
def digitChar36 (d : Nat) : Char := base36Digits.getD d '0'

/-- `n.toString(36)` for a natural number. -/
def natToBase36 (n : Nat) : List Char :=
  if n < 36 then [digitChar36 n]
  else natToBase36 (n / 36) ++ [digitChar36 (n % 36)]
  termination_by n
  decreasing_by exact Nat.div_lt_self (by omega) (by omega)

/-- `generateSubmissionId()`:
``(`SUB-${Date.now().toString(36)}-${random}`).toUpperCase()`` where
`random` is `Math.random().toString(36).substring(2, 8)`, supplied as the
oracle char list `rand`. -/
def generateSubmissionId (ts : Nat) (rand : List Char) : String :=
  String.mk (("SUB-".data ++ natToBase36 ts ++ '-' :: rand).map Char.toUpper)

/-! ## Issue construction -/

/-- The issue-creation request sent to the external tracker: title, labels
and markdown body. -/
structure IssueReq where
  title : String
  labels : List String
  body : String

/-- Whether a char list contains the pattern as a contiguous sublist. -/
def listHasSub : List Char → List Char → Bool
  | [], sub => sub.isEmpty
  | c :: rest, sub => listStartsWith (c :: rest) sub || listHasSub rest sub

/-- `s.includes(sub)`. -/
def strIncludes (s sub : String) : Bool :=
  listHasSub s.data sub.data

/-- `${submitterId || 'unknown'}`. -/
def orOptUnknown (uid : Option String) : String :=
  match uid with
  | none => "unknown"
  | some s => if s = "" then "unknown" else s

/-- `formatCheckBody(data, submissionId, submitterId)`. -/
def formatCheckBody (d : FormData) (sid : String) (uid : Option String) : String :=
  let isCritical := (fdGet d "check_type" == some "critical") ||
    (match fdGet d "check_type" with
     | some s => strIncludes s "Kritisch"
     | none => false)
  let checkTypeText :=
    if isCritical then
      "⚠️ Kritische Änderung – Ort nimmt kein Bitcoin mehr / geschlossen / umgezogen"
    else
      "Normaler Check – Ort akzeptiert weiterhin Bitcoin"
  let proofsSection :=
    if isCritical then
      "### Nachweise (Kritische Änderung)\n\n### Beweis-Foto\n\n" ++
        orDefault (fdGet d "critical_evidence_url") "_nicht angegeben_" ++
        "\n\n### Öffentlicher Post (optional)\n\n" ++
        orDefault (fdGet d "critical_post_url") "_nicht angegeben_"
    else
      "### Nachweise\n\n### 1. Öffentlicher Post (Social Media)\n\n" ++
        orDefault (fdGet d "public_post_url") "_nicht angegeben_" ++
        "\n\n### 2. Kaufbeleg (Bon/Rechnung)\n\n" ++
        orDefault (fdGet d "receipt_proof_url") "_nicht angegeben_" ++
        "\n\n### 3. Bitcoin-Zahlung\n\n" ++
        orDefault (fdGet d "payment_proof_url") "_nicht angegeben_" ++
        "\n\n### 4. Foto vom Ort\n\n" ++
        orDefault (fdGet d "venue_photo_url") "_nicht angegeben_"
  let observationsLabel := if isCritical then "Was ist passiert?" else "Wie lief die Zahlung?"
  "## Satoshis für Berlin – Check\n\n**Submission ID:** `" ++ sid ++
    "`\n**Submitter ID:** `" ++ orOptUnknown uid ++
    "`\n\n---\n\n### Location-ID\n\n" ++
    orDefault (fdGet d "location_id") "_nicht angegeben_" ++
    "\n\n### Datum und Uhrzeit des Kaufs\n\n" ++
    orDefault (fdGet d "date_time") "_nicht angegeben_" ++
    "\n\n### Art des Checks\n\n" ++ checkTypeText ++
    "\n\n---\n\n" ++ proofsSection ++
    "\n\n---\n\n### " ++ observationsLabel ++ "\n\n" ++
    orDefault (fdGet d "observations") "_keine Angabe_" ++
    "\n\n### Änderungen am Eintrag nötig? (optional)\n\n" ++
    orDefault (fdGet d "suggested_updates") "_keine Angabe_" ++
    "\n\n---\n\n_Eingereicht via Webformular. Kontaktdaten wurden separat gespeichert._\n"

/-- `formatNewLocationBody(data, submissionId, submitterId)`. -/
def formatNewLocationBody (d : FormData) (sid : String) (uid : Option String) : String :=
  "## Satoshis für Berlin – Neuer Ort\n\n**Submission ID:** `" ++ sid ++
    "`\n**Submitter ID:** `" ++ orOptUnknown uid ++
    "`\n\n---\n\n### Name des Ortes\n\n" ++
    orDefault (fdGet d "name") "_nicht angegeben_" ++
    "\n\n### Adresse\n\n" ++
    orDefault (fdGet d "address") "_nicht angegeben_" ++
    "\n\n### Kategorie\n\n" ++
    orDefault (fdGet d "category") "_nicht angegeben_" ++
    "\n\n### Website (optional)\n\n" ++
    orDefault (fdGet d "website") "_nicht angegeben_" ++
    "\n\n### OpenStreetMap-Link (optional)\n\n" ++
    orDefault (fdGet d "osm_url") "_nicht angegeben_" ++
    "\n\n---\n\n### Datum und Uhrzeit des Kaufs\n\n" ++
    orDefault (fdGet d "date_time") "_nicht angegeben_" ++
    "\n\n---\n\n### Nachweise\n\n### 1. Öffentlicher Post (Social Media)\n\n" ++
    orDefault (fdGet d "public_post_url") "_nicht angegeben_" ++
    "\n\n### 2. Kaufbeleg (Bon/Rechnung)\n\n" ++
    orDefault (fdGet d "receipt_proof_url") "_nicht angegeben_" ++
    "\n\n### 3. Bitcoin-Zahlung\n\n" ++
    orDefault (fdGet d "payment_proof_url") "_nicht angegeben_" ++
    "\n\n### 4. Foto vom Ort\n\n" ++
    orDefault (fdGet d "venue_photo_url") "_nicht angegeben_" ++
    "\n\n---\n\n### Wie lief die Zahlung?\n\n" ++
    orDefault (fdGet d "notes") "_keine Angabe_" ++
    "\n\n---\n\n_Eingereicht via Webformular. Kontaktdaten wurden separat gespeichert._\n"

/-- The branch of `createGitHubIssue` that builds the issue request
(title, labels, body); the network call itself is an oracle. -/
def createGitHubIssueReq (publicData : FormData) (sid : String)
    (uid : Option String) (isNewLocation : Bool) (today : String) : IssueReq :=
  if isNewLocation then
    { title := "Neuer Ort: " ++ orDefault (fdGet publicData "name") "Unbekannt" ++ " – " ++ today,
      labels := ["pending", "new-location"],
      body := formatNewLocationBody publicData sid uid }
  else
    let locationId := orDefault (fdGet publicData "location_id") "UNKNOWN"
    let isCritical := fdGet publicData "check_type" == some "critical"
    { title :=
        if isCritical then "⚠️ Kritische Änderung: " ++ locationId ++ " – " ++ today
        else "Check: " ++ locationId ++ " – " ++ today,
      labels := if isCritical then ["pending", "check", "critical"] else ["pending", "check"],
      body := formatCheckBody publicData sid uid }

/-! ## The webhook pipeline -/

/-- Webhook configuration: `ALLOWED_ORIGINS_DEV` plus the admin secrets. -/
structure WebEnv where
  devOrigins : Option String
  adminApiToken : Option String
  adminDevOrigins : Option String

/-- An inbound request, with `formData` standing for the result of
`extractFormFields` on the parsed payload. -/
structure WebReq where
  path : String
  method : String
  origin : Option String
  clientIP : Option String
  authHeader : Option String
  querySubmissionId : Option String
  adminBody : Option (Option String × Bool)
  formData : FormData

/-- External-collaborator oracles for one request: the clock, the
rate-limit store read and write outcomes, the ledger cache contents, the
platform date and URL parsers, the two id-generation seeds, the two
ISO-format clock strings and the issue-tracker call outcome. -/
structure WebOra where
  now : Int
  rlGet : Except Unit (Option (List Int))
  rlPutFails : Bool
  validIds : List String
  dateParse : String → Option Int
  urlOk : String → Bool
  idTs : Nat
  idRand : List Char
  todayIso : String
  nowIso : String
  issueResult : Except String (Int × String)
  auditSfx : String

/-- The observable outcome of one `fetch` invocation: response status and
body, the key-value-store operations performed, and the issue-creation
request sent (if any). -/
structure WebOut where
  status : Nat
  body : RespBody
  effects : List KVEff
  published : Option IssueReq

/-- The submission-processing block of `fetch` (after origin and rate
limiting): empty-extraction check, location, date and URL validation,
classification, partition, id derivations, conditional private-data
write, and issue publication. -/
def processSubmission (req : WebReq) (o : WebOra) : WebOut :=
  let fd := req.formData
  if fd.isEmpty then ⟨400, errObj "No form data found", [], none⟩
  else
    match locationValidation fd o.validIds with
    | some (st, b) => ⟨st, b, [], none⟩
    | none =>
      match dateValidation fd o.dateParse o.now with
      | some (st, b) => ⟨st, b, [], none⟩
      | none =>
        match urlValidation fd o.urlOk with
        | some (st, b) => ⟨st, b, [], none⟩
        | none =>
          let isNewLocation := isNewLocationOf fd
          let isCheck := isCheckOf fd
          if !isNewLocation && !isCheck then
            ⟨400, errObj "Invalid form data - missing required fields", [], none⟩
          else
            let submissionId := generateSubmissionId o.idTs o.idRand
            let pp := partitionFields fd
            let publicData := pp.1
            let privateData := pp.2
            let cm := (fdGet privateData "contact_method").getD ""
            let cv := (fdGet privateData "contact_value").getD ""
            let submitterId :=
              if cm != "" && cv != "" then
                some (String.mk (generateSubmitterId (contactStringChars cm.data cv.data)))
              else none
            let storeEffs :=
              if privateData.isEmpty then ([] : List KVEff)
              else [KVEff.put (.submission submissionId)]
            let issue := createGitHubIssueReq publicData submissionId submitterId
              isNewLocation o.todayIso
            match o.issueResult with
            | .error e =>
                ⟨500, .json (.obj [("error", .str "Failed to create GitHub issue"),
                  ("details", .str e)]), storeEffs, some issue⟩
            | .ok (num, urlStr) =>
                ⟨200, .json (.obj [("success", .jbool true),
                  ("submissionId", .str submissionId), ("issueNumber", .num num),
                  ("issueUrl", .str urlStr)]), storeEffs, some issue⟩

/-- The top-level `fetch(request, env, ctx)` router: health check, admin
delegation, path and method gates, the (unreachable) preflight branch,
origin validation, the rate-limit section, then submission processing. -/
def fetchModel (env : WebEnv) (req : WebReq) (store : Store) (o : WebOra) : WebOut :=
  if req.path == "/health" then
    ⟨200, .json (.obj [("status", .str "ok"), ("timestamp", .str o.nowIso)]), [], none⟩
  else if listStartsWith req.path.data "/admin/".data then
    let ar := handleAdminRequest ⟨env.adminApiToken, env.adminDevOrigins⟩
      ⟨req.path, req.method, req.origin, req.authHeader, req.querySubmissionId, req.adminBody⟩
      store o.auditSfx
    ⟨ar.1.status, ar.1.body, ar.2, none⟩
  else if req.path != "/api/submit" then
    ⟨404, .text "Not found", [], none⟩
  else if req.method != "POST" then
    ⟨405, .text "Method not allowed", [], none⟩
  else if req.method == "OPTIONS" then
    ⟨204, .empty, [], none⟩
  else
    let allAllowed := ALLOWED_ORIGINS ++ splitDevOrigins env.devOrigins
    match req.origin with
    | none => ⟨403, errObj "Invalid origin", [], none⟩
    | some og =>
      if !(startsWithAny og allAllowed) then
        ⟨403, errObj "Invalid origin", [], none⟩
      else
        let rlKey := KVKey.ratelimit ((req.clientIP).getD "unknown")
        let rl := rateLimitSection o.rlGet o.now rlKey o.rlPutFails
        match rl.1 with
        | some (st, b) => ⟨st, b, rl.2, none⟩
        | none =>
          let pr := processSubmission req o
          ⟨pr.status, pr.body, rl.2 ++ pr.effects, pr.published⟩

/-- The key an effect touches. -/
def effKey : KVEff → KVKey
  | .get k => k
  | .put k => k
  | .del k => k

/-! ## C1 — admin authentication -/

/--
C1: refuted by the code — the claim states that authentication succeeds
only when the configured reference is at least 16 characters long and the
presented token equals it.  In `timingSafeEqual`, when the lengths differ
the source reassigns `b = a` and then returns
`result === 0 && a.length === b.length`, which compares `a` against the
reassigned `b`; both conjuncts are then true, so any presented token whose
length differs from the reference authenticates.  Here: a 16-character
configured reference, presented token `X` — `timingSafeEqual` accepts,
authentication passes, and the handler proceeds to routing (404 for an
unmatched admin path) instead of answering 401.
-/
theorem c1_auth_bypass_on_length_mismatch :
    timingSafeEqual "X" "0123456789ABCDEF" = true ∧
    "X" ≠ "0123456789ABCDEF" ∧
    isConfigValid (some "0123456789ABCDEF") = true ∧
    (handleAdminRequest ⟨some "0123456789ABCDEF", none⟩
      ⟨"/admin/other", "GET", none, some "Bearer X", none, none⟩
      (fun _ => none) "a").1.status = 404 := by
  refine ⟨by decide, by decide, by decide, ?_⟩
  decide

/-! ## C9 — OPTIONS preflight -/

/--
C9: refuted by the code — the `request.method !== 'POST'` check precedes
the `request.method === 'OPTIONS'` preflight branch, so every OPTIONS
request to `/api/submit` is answered 405 and the 204 branch is dead code.
-/
theorem c9_options_gets_405 (env : WebEnv) (store : Store) (o : WebOra)
    (origin clientIP authHeader qsid : Option String)
    (adminBody : Option (Option String × Bool)) (fd : FormData) :
    (fetchModel env
      ⟨"/api/submit", "OPTIONS", origin, clientIP, authHeader, qsid, adminBody, fd⟩
      store o).status = 405 := by
  rfl

/-! ## C2 — submission-id format gate -/

/-- Every store operation `getContactInfo` performs on a submission key
uses an id that passed the format check. -/
theorem getContactInfo_submission_keys_checked (sid : Option String) (store : Store)
    (sfx : String) :
    ∀ e ∈ (getContactInfo sid store sfx).2, ∀ id, effKey e = .submission id →
      subIdOk id = true := by
  intro e he id hk
  unfold getContactInfo at he
  by_cases hsv : sid.getD "" = ""
  · simp [hsv] at he
  · simp only [hsv, if_false] at he
    by_cases hfmt : subIdOk (sid.getD "") = true
    · simp only [hfmt, Bool.not_true, Bool.false_eq_true, if_false] at he
      cases hst : store (.submission (sid.getD "")) <;> simp [hst] at he <;>
        rcases he with he | he <;> subst he <;> simp [effKey] at hk <;>
        (subst hk; exact hfmt)
    · simp [Bool.not_eq_true] at hfmt
      simp [hfmt] at he

/-- Every store operation `markAsPaid` performs on a submission key uses an
id that passed the format check. -/
theorem markAsPaid_submission_keys_checked (body : Option (Option String × Bool))
    (store : Store) (sfx : String) :
    ∀ e ∈ (markAsPaid body store sfx).2, ∀ id, effKey e = .submission id →
      subIdOk id = true := by
  intro e he id hk
  unfold markAsPaid at he
  match body with
  | none => simp at he
  | some (sid, dd) =>
    by_cases hsv : sid.getD "" = ""
    · simp [hsv] at he
    · simp only [hsv, if_false] at he
      by_cases hfmt : subIdOk (sid.getD "") = true
      · simp only [hfmt, Bool.not_true, Bool.false_eq_true, if_false] at he
        cases hst : store (.submission (sid.getD "")) <;> simp [hst] at he
        · rcases he with he | he <;> subst he <;> simp [effKey] at hk
          · subst hk; exact hfmt
        · cases dd <;> simp at he <;> rcases he with he | he | he <;>
            subst he <;> simp [effKey] at hk <;> (subst hk; exact hfmt)
      · simp [Bool.not_eq_true] at hfmt
        simp [hfmt] at he

/--
C2: for every string not matching the submission-id format, both admin
operations answer 400 without touching the store at all (with the
invalid-format body whenever the string is non-empty — the empty string is
treated as a missing parameter, also 400 with no store access), and every
submission key either operation ever uses carries an id that passed the
format check.
-/
theorem c2_format_gate_before_store (s : String) (dd : Bool) (store : Store)
    (sfx : String) (h : subIdOk s = false) :
    (getContactInfo (some s) store sfx).1.status = 400 ∧
    (getContactInfo (some s) store sfx).2 = [] ∧
    (markAsPaid (some (some s, dd)) store sfx).1.status = 400 ∧
    (markAsPaid (some (some s, dd)) store sfx).2 = [] ∧
    (s ≠ "" →
      (getContactInfo (some s) store sfx).1.body = errObj "Invalid submission_id format" ∧
      (markAsPaid (some (some s, dd)) store sfx).1.body = errObj "Invalid submission_id format") ∧
    (∀ sid2 store2 sfx2, ∀ e ∈ (getContactInfo sid2 store2 sfx2).2, ∀ id,
      effKey e = .submission id → subIdOk id = true) ∧
    (∀ body2 store2 sfx2, ∀ e ∈ (markAsPaid body2 store2 sfx2).2, ∀ id,
      effKey e = .submission id → subIdOk id = true) := by
  refine ⟨?_, ?_, ?_, ?_, ?_, ?_, ?_⟩
  · by_cases hs : s = "" <;> simp [getContactInfo, hs, h]
  · by_cases hs : s = "" <;> simp [getContactInfo, hs, h]
  · by_cases hs : s = "" <;> simp [markAsPaid, hs, h]
  · by_cases hs : s = "" <;> simp [markAsPaid, hs, h]
  · intro hs
    constructor <;> simp [getContactInfo, markAsPaid, hs, h]
  · intro sid2 store2 sfx2
    exact getContactInfo_submission_keys_checked sid2 store2 sfx2
  · intro body2 store2 sfx2
    exact markAsPaid_submission_keys_checked body2 store2 sfx2

/-- Witness for C2 at concrete inputs. -/
theorem c2_format_gate_before_store_witness :
    subIdOk "DROP:*" = false ∧
    (getContactInfo (some "DROP:*") (fun _ => none) "a").1.status = 400 ∧
    (getContactInfo (some "DROP:*") (fun _ => none) "a").2 = [] := by
  have h := c2_format_gate_before_store "DROP:*" true (fun _ => none) "a" (by decide)
  exact ⟨by decide, h.1, h.2.1⟩

/-! ## C3 — privacy partition -/

/-- The partition loop is the pair of key-membership filters. -/
theorem partitionFields_go (fd : FormData) :
    ∀ a b : FormData,
      fd.foldl
        (fun acc kv =>
          if PRIVATE_FIELDS.contains kv.1 then (acc.1, acc.2 ++ [kv])
          else (acc.1 ++ [kv], acc.2)) (a, b) =
      (a ++ fd.filter (fun kv => !(PRIVATE_FIELDS.contains kv.1)),
       b ++ fd.filter (fun kv => PRIVATE_FIELDS.contains kv.1)) := by
  induction fd with
  | nil => simp
  | cons kv rest ih =>
    intro a b
    by_cases h : kv.1 ∈ PRIVATE_FIELDS <;>
      simp only [List.foldl_cons, List.filter_cons] <;>
      simp [h]
    · exact (by simpa [List.append_assoc] using ih a (b ++ [kv]))
    · exact (by simpa [List.append_assoc] using ih (a ++ [kv]) b)

/-- `partitionFields` as filters. -/
theorem partitionFields_eq (fd : FormData) :
    partitionFields fd =
      (fd.filter (fun kv => !(PRIVATE_FIELDS.contains kv.1)),
       fd.filter (fun kv => PRIVATE_FIELDS.contains kv.1)) := by
  have h := partitionFields_go fd [] []
  simpa [partitionFields] using h

/--
C3: the privacy partition produces two mappings that together are a
permutation of the input, the private one holds exactly the input entries
whose key is a private field, the public one exactly the rest, entries of
the two never share a key, and the public mapping never contains
`contact_method` or `contact_value`.
-/
theorem c3_privacy_partition (fd : FormData) :
    ((partitionFields fd).1 ++ (partitionFields fd).2).Perm fd ∧
    (∀ kv, kv ∈ (partitionFields fd).2 ↔ kv ∈ fd ∧ kv.1 ∈ PRIVATE_FIELDS) ∧
    (∀ kv, kv ∈ (partitionFields fd).1 ↔ kv ∈ fd ∧ kv.1 ∉ PRIVATE_FIELDS) ∧
    (∀ kv ∈ (partitionFields fd).1, ∀ kv2 ∈ (partitionFields fd).2, kv.1 ≠ kv2.1) ∧
    (∀ kv ∈ (partitionFields fd).1, kv.1 ≠ "contact_method" ∧ kv.1 ≠ "contact_value") := by
  rw [partitionFields_eq]
  refine ⟨?_, ?_, ?_, ?_, ?_⟩
  · have h := List.filter_append_perm (fun kv : String × String =>
      !(PRIVATE_FIELDS.contains kv.1)) fd
    simpa using h
  · intro kv; simp [List.mem_filter]
  · intro kv; simp [List.mem_filter]
  · intro kv hkv kv2 hkv2 heq
    simp [List.mem_filter] at hkv hkv2
    rw [heq] at hkv
    exact absurd hkv2.2 (by simpa using hkv.2)
  · intro kv hkv
    simp [List.mem_filter, PRIVATE_FIELDS] at hkv
    exact hkv.2

/-- Witness for C3 at a concrete mapping. -/
theorem c3_privacy_partition_witness :
    ("contact_value", "y") ∈ (partitionFields [("name", "x"), ("contact_value", "y")]).2 ∧
    ("name", "x") ∈ (partitionFields [("name", "x"), ("contact_value", "y")]).1 ∧
    ("name" ≠ "contact_method" ∧ "name" ≠ "contact_value") := by
  have h := c3_privacy_partition [("name", "x"), ("contact_value", "y")]
  refine ⟨(h.2.1 ("contact_value", "y")).mpr ⟨by decide, by decide⟩,
    (h.2.2.1 ("name", "x")).mpr ⟨by decide, by decide⟩,
    h.2.2.2.2 ("name", "x") ?_⟩
  exact (h.2.2.1 ("name", "x")).mpr ⟨by decide, by decide⟩

/-! ## C5 — rate limiter fails open -/

/-- Replace the rate-limit read outcome of an oracle bundle. -/
def setRlGet (o : WebOra) (g : Except Unit (Option (List Int))) : WebOra :=
  ⟨o.now, g, o.rlPutFails, o.validIds, o.dateParse, o.urlOk, o.idTs, o.idRand,
   o.todayIso, o.nowIso, o.issueResult, o.auditSfx⟩

/-- Replace the rate-limit write outcome of an oracle bundle. -/
def setRlPutFails (o : WebOra) (b : Bool) : WebOra :=
  ⟨o.now, o.rlGet, b, o.validIds, o.dateParse, o.urlOk, o.idTs, o.idRand,
   o.todayIso, o.nowIso, o.issueResult, o.auditSfx⟩

/--
C5: when the store read of the Rate Limiter fails, the request is not
rejected — the whole response (status, body, published issue) is the one
an admitting limiter run produces; a failing store write likewise cannot
change the limiter outcome at all.
-/
theorem c5_rate_limiter_fails_open (env : WebEnv) (store : Store) (o : WebOra)
    (og : String) (ip ah qs : Option String) (ab : Option (Option String × Bool))
    (fd : FormData)
    (h : startsWithAny og (ALLOWED_ORIGINS ++ splitDevOrigins env.devOrigins) = true) :
    (fetchModel env ⟨"/api/submit", "POST", some og, ip, ah, qs, ab, fd⟩ store
        (setRlGet o (Except.error ()))).status =
      (fetchModel env ⟨"/api/submit", "POST", some og, ip, ah, qs, ab, fd⟩ store
        (setRlGet o (Except.ok none))).status ∧
    (fetchModel env ⟨"/api/submit", "POST", some og, ip, ah, qs, ab, fd⟩ store
        (setRlGet o (Except.error ()))).body =
      (fetchModel env ⟨"/api/submit", "POST", some og, ip, ah, qs, ab, fd⟩ store
        (setRlGet o (Except.ok none))).body ∧
    (fetchModel env ⟨"/api/submit", "POST", some og, ip, ah, qs, ab, fd⟩ store
        (setRlGet o (Except.error ()))).published =
      (fetchModel env ⟨"/api/submit", "POST", some og, ip, ah, qs, ab, fd⟩ store
        (setRlGet o (Except.ok none))).published ∧
    (∀ now key pf, (rateLimitSection (Except.error ()) now key pf).1 = none) ∧
    (∀ gr now key, rateLimitSection gr now key true = rateLimitSection gr now key false) := by
  have hadm : listStartsWith "/api/submit".data "/admin/".data = false := by decide
  have hps : processSubmission ⟨"/api/submit", "POST", some og, ip, ah, qs, ab, fd⟩
      (setRlGet o (Except.error ())) =
    processSubmission ⟨"/api/submit", "POST", some og, ip, ah, qs, ab, fd⟩
      (setRlGet o (Except.ok none)) := rfl
  simp only [setRlGet] at hps
  refine ⟨?_, ?_, ?_, ?_, ?_⟩
  · simp [fetchModel, rateLimitSection, setRlGet, h, hadm, rateLimitCore,
      RATE_LIMIT_MAX_REQUESTS, hps]
  · simp [fetchModel, rateLimitSection, setRlGet, h, hadm, rateLimitCore,
      RATE_LIMIT_MAX_REQUESTS, hps]
  · simp [fetchModel, rateLimitSection, setRlGet, h, hadm, rateLimitCore,
      RATE_LIMIT_MAX_REQUESTS, hps]
  · intro now key pf; rfl
  · intro gr now key
    cases gr with
    | error e => rfl
    | ok raw => cases rateLimitCore raw now <;> simp [rateLimitSection]

/-- Witness for C5 at a concrete admitted request. -/
theorem c5_rate_limiter_fails_open_witness :
    startsWithAny "https://satoshiinberlin.github.io"
      (ALLOWED_ORIGINS ++ splitDevOrigins none) = true ∧
    (∀ now key pf, (rateLimitSection (Except.error ()) now key pf).1 = none) := by
  refine ⟨by decide, ?_⟩
  exact (c5_rate_limiter_fails_open ⟨none, none, none⟩ (fun _ => none)
    ⟨0, Except.ok none, false, [], fun _ => none, fun _ => true, 0, [], "", "",
      Except.ok (1, "u"), "a"⟩
    "https://satoshiinberlin.github.io" none none none none [] (by decide)).2.2.2.1

/-! ## C6 — location validation -/

/--
C6: with a truthy `location_id`, a format-regex failure rejects with the
400 invalid-format body for every ledger cache state; a well-formatted id
absent from a non-empty cache rejects with the 400 not-found body; and a
well-formatted id with an empty cache passes the location checks.
-/
theorem c6_location_checks (fd : FormData) (ids : List String)
    (h : fdTruthy fd "location_id" = true) :
    (locationIdFormatOk ((fdGet fd "location_id").getD "") = false →
      locationValidation fd ids = some (400, errObj "Invalid location ID format")) ∧
    (locationIdFormatOk ((fdGet fd "location_id").getD "") = true →
      ids ≠ [] → ids.contains ((fdGet fd "location_id").getD "") = false →
      locationValidation fd ids = some (400, locNotFoundBody ((fdGet fd "location_id").getD ""))) ∧
    (locationIdFormatOk ((fdGet fd "location_id").getD "") = true → ids = [] →
      locationValidation fd ids = none) := by
  refine ⟨?_, ?_, ?_⟩
  · intro hfmt
    simp [locationValidation, h, hfmt]
  · intro hfmt hne hmem
    have hlen : 0 < ids.length := List.length_pos.mpr hne
    simp [locationValidation, h, hfmt, hlen]
    simpa using hmem
  · intro hfmt hnil
    subst hnil
    simp [locationValidation, h, hfmt]

/-- Witness for C6, exercising all three cases at concrete inputs. -/
theorem c6_location_checks_witness :
    locationValidation [("location_id", "XX")] ["DE-BE-99999"] =
      some (400, errObj "Invalid location ID format") ∧
    locationValidation [("location_id", "DE-BE-12345")] ["DE-BE-99999"] =
      some (400, locNotFoundBody "DE-BE-12345") ∧
    locationValidation [("location_id", "DE-BE-12345")] [] = none := by
  refine ⟨?_, ?_, ?_⟩
  · exact (c6_location_checks [("location_id", "XX")] ["DE-BE-99999"] (by decide)).1
      (by decide)
  · exact (c6_location_checks [("location_id", "DE-BE-12345")] ["DE-BE-99999"]
      (by decide)).2.1 (by decide) (by decide) (by decide)
  · exact (c6_location_checks [("location_id", "DE-BE-12345")] [] (by decide)).2.2
      (by decide) rfl

/-! ## C4 — sliding-window admission count -/

/-- With no time advance, the window filter keeps every stored timestamp. -/
theorem filter_window_replicate (i : Nat) (now : Int) :
    (List.replicate i now).filter (fun ts => now - ts < RATE_LIMIT_WINDOW_MS) =
      List.replicate i now := by
  apply List.filter_eq_self.mpr
  intro a ha
  rw [List.eq_of_mem_replicate ha]
  simp [RATE_LIMIT_WINDOW_MS]

/-- `Math.min` over identical timestamps. -/
theorem foldl_min_replicate (n : Nat) (now : Int) :
    (List.replicate n now).foldl min now = now := by
  induction n with
  | zero => rfl
  | succ m ih => rw [List.replicate_succ, List.foldl_cons, min_self]; exact ih

/-- `Math.min(...timestamps)` of a constant non-empty list. -/
theorem jsMathMin_replicate (i : Nat) (now : Int) (h : i ≠ 0) :
    jsMathMin (List.replicate i now) = now := by
  cases i with
  | zero => exact absurd rfl h
  | succ n =>
    rw [List.replicate_succ]
    exact foldl_min_replicate n now

/-- Below the maximum, the limiter admits and appends the new timestamp. -/
theorem rateLimitCore_replicate_lt (i : Nat) (now : Int) (h : i < 10) :
    rateLimitCore (some (List.replicate i now)) now =
      .allow (List.replicate (i + 1) now) := by
  unfold rateLimitCore
  rw [Option.getD_some, filter_window_replicate]
  have hlen : ¬(RATE_LIMIT_MAX_REQUESTS ≤ (List.replicate i now).length) := by
    simp [RATE_LIMIT_MAX_REQUESTS]; omega
  rw [if_neg hlen]
  have h20 : (List.replicate i now ++ [now]).length - RATE_LIMIT_MAX_REQUESTS * 2 = 0 := by
    simp [RATE_LIMIT_MAX_REQUESTS]; omega
  show RLCore.allow (List.drop ((List.replicate i now ++ [now]).length - RATE_LIMIT_MAX_REQUESTS * 2)
    (List.replicate i now ++ [now])) = _
  rw [h20, List.drop_zero, ← List.replicate_succ']

/-- At the maximum with no time advance, the limiter rejects with
retry-after 3600 seconds. -/
theorem rateLimitCore_replicate_full (now : Int) :
    rateLimitCore (some (List.replicate 10 now)) now = .reject 3600 := by
  unfold rateLimitCore
  rw [Option.getD_some, filter_window_replicate]
  have hlen : RATE_LIMIT_MAX_REQUESTS ≤ (List.replicate 10 now).length := by
    simp [RATE_LIMIT_MAX_REQUESTS]
  rw [if_pos hlen, jsMathMin_replicate 10 now (by omega)]
  have : now + RATE_LIMIT_WINDOW_MS - now = 3600000 := by
    simp only [RATE_LIMIT_WINDOW_MS]; omega
  rw [this]
  decide

/-- The first request against an empty window is admitted. -/
theorem rateLimitCore_none (now : Int) :
    rateLimitCore none now = .allow (List.replicate 1 now) := by
  unfold rateLimitCore
  simp [RATE_LIMIT_MAX_REQUESTS, List.replicate]

/-- After saturation, every further same-instant request is rejected with
retry-after 3600. -/
theorem rlRun_reject_state (now : Int) (m : Nat) :
    rlRun (some (List.replicate 10 now)) now m =
      List.replicate m (.rejected 3600) := by
  induction m with
  | zero => rfl
  | succ k ih =>
    rw [rlRun, rateLimitCore_replicate_full, ih, List.replicate_succ]

/-- The run from `i` stored same-instant timestamps admits the next
`10 − i` requests and rejects the rest. -/
theorem rlRun_split (now : Int) :
    ∀ (j i k : Nat), i + j = 10 →
      rlRun (some (List.replicate i now)) now (j + k) =
        List.replicate j .granted ++ List.replicate k (.rejected 3600) := by
  intro j
  induction j with
  | zero =>
    intro i k h
    have : i = 10 := by omega
    subst this
    simpa using rlRun_reject_state now k
  | succ m ih =>
    intro i k h
    have hi : i < 10 := by omega
    have hstep : m + 1 + k = (m + k) + 1 := by omega
    rw [hstep, rlRun, rateLimitCore_replicate_lt i now hi]
    show RLRes.granted :: rlRun (some (List.replicate (i + 1) now)) now (m + k) = _
    rw [ih (i + 1) k (by omega), List.replicate_succ]
    rfl

/--
C4: from an empty window, a client issuing `10 + k` same-instant requests
gets exactly the first 10 admitted and each later one rejected, with a
retry-after equal to the ceiling in seconds of the time until the oldest
retained timestamp (here `now` itself) leaves the one-hour window — 3600,
which is positive; a rejection surfaces as status 429 with the
rate-limit body carrying that retry-after.
-/
theorem c4_rate_limit_admissions (k : Nat) (now : Int) (key : KVKey) (pf : Bool) :
    rlRun none now (10 + k) =
      List.replicate 10 .granted ++
        List.replicate k (.rejected (jsCeilDiv1000 (now + RATE_LIMIT_WINDOW_MS - now))) ∧
    jsCeilDiv1000 (now + RATE_LIMIT_WINDOW_MS - now) = 3600 ∧
    (0 : Int) < jsCeilDiv1000 (now + RATE_LIMIT_WINDOW_MS - now) ∧
    (∀ raw retry, rateLimitCore raw now = .reject retry →
      (rateLimitSection (.ok raw) now key pf).1 = some (429, rateLimitBody retry)) := by
  have hval : now + RATE_LIMIT_WINDOW_MS - now = 3600000 := by
    simp only [RATE_LIMIT_WINDOW_MS]; omega
  have hceil : jsCeilDiv1000 (now + RATE_LIMIT_WINDOW_MS - now) = 3600 := by
    rw [hval]; decide
  refine ⟨?_, hceil, by rw [hceil]; norm_num, ?_⟩
  · rw [hceil]
    have hsucc : 10 + k = (9 + k) + 1 := by omega
    rw [hsucc, rlRun, rateLimitCore_none]
    show RLRes.granted :: rlRun (some (List.replicate 1 now)) now (9 + k) = _
    rw [rlRun_split now 9 1 k (by omega)]
    rfl
  · intro raw retry hr
    simp [rateLimitSection, hr]

/-- Witness for C4 at two extra requests. -/
theorem c4_rate_limit_admissions_witness :
    rlRun none 0 12 =
      List.replicate 10 .granted ++ List.replicate 2 (.rejected 3600) ∧
    (rateLimitSection (.ok (some (List.replicate 10 (0 : Int)))) 0
      (KVKey.ratelimit "ip") false).1 = some (429, rateLimitBody 3600) := by
  have h := c4_rate_limit_admissions 2 0 (KVKey.ratelimit "ip") false
  have hv : jsCeilDiv1000 (0 + RATE_LIMIT_WINDOW_MS - 0) = 3600 := h.2.1
  constructor
  · have h1 := h.1
    rw [hv] at h1
    exact h1
  · exact h.2.2.2 (some (List.replicate 10 (0 : Int))) 3600 (by decide)

/-! ## C7 — dual-match precedence -/

/-- The empty pattern is a prefix of anything. -/
theorem listStartsWith_nil (l : List Char) : listStartsWith l [] = true := by
  cases l <;> rfl

/-- A prefix of the left part is a prefix of the whole. -/
theorem listStartsWith_append_of {l r p : List Char}
    (h : listStartsWith l p = true) : listStartsWith (l ++ r) p = true := by
  induction p generalizing l with
  | nil => exact listStartsWith_nil _
  | cons a as ih =>
    cases l with
    | nil => simp [listStartsWith] at h
    | cons c cs =>
      simp only [List.cons_append, listStartsWith, Bool.and_eq_true] at h ⊢
      exact ⟨h.1, ih h.2⟩

/-- Two prefixes of one list are nested. -/
theorem listStartsWith_nested : ∀ (l p q : List Char),
    listStartsWith l p = true → listStartsWith l q = true →
    p.length ≤ q.length → listStartsWith q p = true := by
  intro l
  induction l with
  | nil =>
    intro p q hp hq _
    cases p with
    | nil => exact listStartsWith_nil _
    | cons a as => simp [listStartsWith] at hp
  | cons c cs ih =>
    intro p q hp hq hlen
    cases p with
    | nil => exact listStartsWith_nil _
    | cons a as =>
      cases q with
      | nil => simp at hlen
      | cons b bs =>
        simp only [listStartsWith, Bool.and_eq_true, beq_iff_eq] at hp hq ⊢
        exact ⟨hq.1.symm.trans hp.1, ih as bs hp.2 hq.2 (by simpa using hlen)⟩

/-- The check body starts with its fixed header. -/
theorem formatCheckBody_header (d : FormData) (sid : String) (uid : Option String) :
    listStartsWith (formatCheckBody d sid uid).data
      "## Satoshis für Berlin – C".data = true := by
  simp only [formatCheckBody, String.data_append]
  repeat apply listStartsWith_append_of
  decide

/-- The new-location body starts with its fixed header. -/
theorem formatNewLocationBody_header (d : FormData) (sid : String) (uid : Option String) :
    listStartsWith (formatNewLocationBody d sid uid).data
      "## Satoshis für Berlin – N".data = true := by
  simp only [formatNewLocationBody, String.data_append]
  repeat apply listStartsWith_append_of
  decide

/-- The two issue-body templates can never produce the same string. -/
theorem formatBodies_ne (d d2 : FormData) (sid sid2 : String)
    (uid uid2 : Option String) :
    formatNewLocationBody d sid uid ≠ formatCheckBody d2 sid2 uid2 := by
  intro h
  have h1 := formatNewLocationBody_header d sid uid
  have h2 := formatCheckBody_header d2 sid2 uid2
  rw [h] at h1
  have := listStartsWith_nested (formatCheckBody d2 sid2 uid2).data
    "## Satoshis für Berlin – N".data "## Satoshis für Berlin – C".data h1 h2
    (by decide)
  exact absurd this (by decide)

/--
C7: a payload satisfying both the new-location and the check predicate is
accepted and processed as a new-location submission: the pipeline reaches
publication with the new-location flag, and the published issue carries
the new-location title, labels and body — never the check title, labels
or body.
-/
theorem c7_dual_match_is_new_location (req : WebReq) (o : WebOra)
    (h1 : isNewLocationOf req.formData = true)
    (h2 : isCheckOf req.formData = true)
    (h4 : locationValidation req.formData o.validIds = none)
    (h5 : dateValidation req.formData o.dateParse o.now = none)
    (h6 : urlValidation req.formData o.urlOk = none)
    (n : Int) (u : String) (h7 : o.issueResult = .ok (n, u)) :
    (processSubmission req o).status = 200 ∧
    (∃ uid, (processSubmission req o).published =
      some (createGitHubIssueReq (partitionFields req.formData).1
        (generateSubmissionId o.idTs o.idRand) uid true o.todayIso)) ∧
    (∀ pub sid uid,
      (createGitHubIssueReq pub sid uid true o.todayIso).labels = ["pending", "new-location"] ∧
      (createGitHubIssueReq pub sid uid true o.todayIso).title =
        "Neuer Ort: " ++ orDefault (fdGet pub "name") "Unbekannt" ++ " – " ++ o.todayIso ∧
      (createGitHubIssueReq pub sid uid true o.todayIso).body = formatNewLocationBody pub sid uid ∧
      (createGitHubIssueReq pub sid uid true o.todayIso).labels ≠ ["pending", "check"] ∧
      (createGitHubIssueReq pub sid uid true o.todayIso).labels ≠ ["pending", "check", "critical"] ∧
      (createGitHubIssueReq pub sid uid true o.todayIso).body ≠ formatCheckBody pub sid uid) := by
  have h3 : req.formData.isEmpty = false := by
    cases hfd : req.formData with
    | nil =>
      rw [hfd] at h1
      simp [isNewLocationOf, NEW_LOCATION_REQUIRED_FIELDS, fdTruthy, fdGet] at h1
    | cons a l => simp
  refine ⟨?_, ?_, ?_⟩
  · simp [processSubmission, h3, h4, h5, h6, h1, h7]
  · simp only [processSubmission, h3, Bool.false_eq_true, if_false, h4, h5, h6, h1,
      Bool.not_true, Bool.false_and, h7]
    exact ⟨_, rfl⟩
  · intro pub sid uid
    refine ⟨by simp [createGitHubIssueReq], by simp [createGitHubIssueReq],
      by simp [createGitHubIssueReq], by simp [createGitHubIssueReq],
      by simp [createGitHubIssueReq], ?_⟩
    simp only [createGitHubIssueReq, if_true]
    exact formatBodies_ne pub pub sid sid uid uid

/-- Witness for C7 at a concrete dual-match payload. -/
theorem c7_dual_match_is_new_location_witness :
    (processSubmission
      ⟨"/api/submit", "POST", some "o", none, none, none, none,
        [("name", "N"), ("address", "A"), ("category", "K"),
         ("location_id", "DE-BE-12345"), ("date_time", "gestern"),
         ("public_post_url", "_nicht angegeben_")]⟩
      ⟨0, Except.ok none, false, [], fun _ => none, fun _ => false, 0, ['a'],
        "2024-01-01", "", Except.ok (5, "u"), "x"⟩).status = 200 ∧
    (createGitHubIssueReq [] "s" none true "2024-01-01").labels =
      ["pending", "new-location"] := by
  have h := c7_dual_match_is_new_location
    ⟨"/api/submit", "POST", some "o", none, none, none, none,
      [("name", "N"), ("address", "A"), ("category", "K"),
       ("location_id", "DE-BE-12345"), ("date_time", "gestern"),
       ("public_post_url", "_nicht angegeben_")]⟩
    ⟨0, Except.ok none, false, [], fun _ => none, fun _ => false, 0, ['a'],
      "2024-01-01", "", Except.ok (5, "u"), "x"⟩
    (by decide) (by decide) rfl rfl rfl 5 "u" rfl
  exact ⟨h.1, (h.2.2 [] "s" none).1⟩

/-! ## C8 — pseudonymous id -/

/-- Every byte of a word decomposition is below 256. -/
theorem wordBytes_lt (w : Nat) : ∀ b ∈ wordBytes w, b < 256 := by
  intro b hb
  simp [wordBytes] at hb
  rcases hb with h | h | h | h <;> subst h <;> omega

/-- The digest is 32 bytes long. -/
theorem sha256_length (msg : List Nat) : (sha256 msg).length = 32 := by
  simp [sha256, wordBytes]

/-- Every digest byte is below 256. -/
theorem sha256_lt (msg : List Nat) : ∀ b ∈ sha256 msg, b < 256 := by
  intro b hb
  simp only [sha256, List.mem_append] at hb
  rcases hb with ((((((h | h) | h) | h) | h) | h) | h) | h <;> exact wordBytes_lt _ b h

/-- A hex digit char of a value below 16 is in the hex alphabet. -/
theorem hexDigitChar_mem (d : Nat) (hd : d < 16) : hexDigitChar d ∈ hexDigits := by
  unfold hexDigitChar
  have hlt : d < hexDigits.length := by simpa [hexDigits] using hd
  rw [List.getD_eq_getElem _ _ hlt]
  exact List.getElem_mem hlt

/-- Both hex chars of a byte are in the hex alphabet. -/
theorem byteHexChars_mem (b : Nat) (hb : b < 256) :
    ∀ c ∈ byteHexChars b, c ∈ hexDigits := by
  intro c hc
  simp [byteHexChars] at hc
  rcases hc with h | h <;> subst h <;> exact hexDigitChar_mem _ (by omega)

/-- The hex rendering of a byte list only uses the hex alphabet. -/
theorem hashHexChars_mem (bytes : List Nat) (h : ∀ b ∈ bytes, b < 256) :
    ∀ c ∈ hashHexChars bytes, c ∈ hexDigits := by
  intro c hc
  simp only [hashHexChars] at hc
  rw [List.mem_flatten] at hc
  obtain ⟨l, hl, hcl⟩ := hc
  obtain ⟨b, hb, rfl⟩ := List.mem_map.mp hl
  exact byteHexChars_mem b (h b hb) c hcl

/-- The hex rendering is two chars per byte. -/
theorem hashHexChars_length (bytes : List Nat) :
    (hashHexChars bytes).length = 2 * bytes.length := by
  induction bytes with
  | nil => rfl
  | cons b bs ih =>
    simp [hashHexChars, byteHexChars] at ih ⊢
    omega

/-- Uppercasing a lowercase hex digit gives an uppercase hex digit. -/
theorem hexDigits_toUpper : ∀ c ∈ hexDigits, c.toUpper ∈ "0123456789ABCDEF".data := by
  decide

/-- The derived id is `USER-` followed by exactly 12 uppercase hex chars. -/
theorem generateSubmitterId_shape (contact : List Char) :
    (generateSubmitterId contact).take 5 = "USER-".data ∧
    (generateSubmitterId contact).length = 17 ∧
    ∀ c ∈ (generateSubmitterId contact).drop 5, c ∈ "0123456789ABCDEF".data := by
  have hlen64 : (hashHexChars (sha256 (utf8Encode contact))).length = 64 := by
    rw [hashHexChars_length, sha256_length]
  refine ⟨?_, ?_, ?_⟩
  · simp only [generateSubmitterId]
    exact List.take_left' (by decide)
  · simp only [generateSubmitterId]
    rw [List.length_append, List.length_map, List.length_take, hlen64]
    decide
  · intro c hc
    simp only [generateSubmitterId] at hc
    rw [List.drop_left' (by decide : ("USER-".data).length = 5)] at hc
    obtain ⟨c2, hc2, rfl⟩ := List.mem_map.mp hc
    have hmem : c2 ∈ hashHexChars (sha256 (utf8Encode contact)) :=
      List.mem_of_mem_take hc2
    exact hexDigits_toUpper c2 (hashHexChars_mem _ (sha256_lt _) c2 hmem)

/--
C8: the submitter id derived from the raw contact pair depends only on
the case-folded, trimmed contact fields — two submissions whose
`contact_method` and `contact_value` differ only in letter case or
leading/trailing whitespace get the same id — and every derived id is
`USER-` followed by exactly 12 hexadecimal characters of the SHA-256
digest (uppercased) of the lowercase, trimmed contact concatenation.
-/
theorem c8_submitter_id_normalized (m1 v1 m2 v2 : String)
    (hm : jsToLowerChars (jsTrimChars m1.data) = jsToLowerChars (jsTrimChars m2.data))
    (hv : jsToLowerChars (jsTrimChars v1.data) = jsToLowerChars (jsTrimChars v2.data)) :
    submitterIdOfSubmission m1 v1 = submitterIdOfSubmission m2 v2 ∧
    (∀ m v, (submitterIdOfSubmission m v).take 5 = "USER-".data ∧
      (submitterIdOfSubmission m v).length = 17 ∧
      ∀ c ∈ (submitterIdOfSubmission m v).drop 5, c ∈ "0123456789ABCDEF".data) := by
  constructor
  · unfold submitterIdOfSubmission
    congr 1
    unfold contactStringChars
    congr 1
    simp only [jsToLowerChars] at hm hv ⊢
    simp only [List.map_append, List.map_cons]
    rw [hm, hv]
  · intro m v
    exact generateSubmitterId_shape _

/-- Witness for C8: same contact up to case and outer whitespace. -/
theorem c8_submitter_id_normalized_witness :
    jsToLowerChars (jsTrimChars "Email ".data) = jsToLowerChars (jsTrimChars "  email".data) ∧
    jsToLowerChars (jsTrimChars "X@Y".data) = jsToLowerChars (jsTrimChars "x@y ".data) ∧
    submitterIdOfSubmission "Email " "X@Y" = submitterIdOfSubmission "  email" "x@y " := by
  refine ⟨by decide, by decide, ?_⟩
  exact (c8_submitter_id_normalized "Email " "X@Y" "  email" "x@y "
    (by decide) (by decide)).1

/-! ## C10 — no private fields, no submission write -/

/-- A base36 digit char of a value below 36 is in the base36 alphabet. -/
theorem digitChar36_mem (d : Nat) (hd : d < 36) : digitChar36 d ∈ base36Digits := by
  unfold digitChar36
  have hlt : d < base36Digits.length := by simpa [base36Digits] using hd
  rw [List.getD_eq_getElem _ _ hlt]
  exact List.getElem_mem hlt

/-- `toString(36)` output is non-empty and uses only the base36 alphabet. -/
theorem natToBase36_spec (n : Nat) :
    natToBase36 n ≠ [] ∧ ∀ c ∈ natToBase36 n, c ∈ base36Digits := by
  induction n using Nat.strong_induction_on with
  | _ n ih =>
    unfold natToBase36
    split
    · next h =>
      refine ⟨by simp, ?_⟩
      intro c hc
      simp at hc
      subst hc
      exact digitChar36_mem n h
    · next h =>
      have h36 : n / 36 < n := Nat.div_lt_self (by omega) (by omega)
      obtain ⟨hne, hmem⟩ := ih (n / 36) h36
      refine ⟨by simp, ?_⟩
      intro c hc
      rw [List.mem_append] at hc
      rcases hc with hc | hc
      · exact hmem c hc
      · simp at hc
        subst hc
        exact digitChar36_mem _ (by omega)

/-- Uppercasing a base36 char lands in the `[A-Z0-9]` class. -/
theorem base36_toUpper : ∀ c ∈ base36Digits, isB36U c.toUpper = true := by
  decide

/-- A list of class chars satisfies `seg2Rest`. -/
theorem seg2Rest_all (l : List Char) (h : ∀ c ∈ l, isB36U c = true) :
    seg2Rest l = true := by
  induction l with
  | nil => rfl
  | cons c cs ih =>
    simp only [seg2Rest, Bool.and_eq_true]
    exact ⟨h c (by simp), ih (fun c2 hc2 => h c2 (by simp [hc2]))⟩

/-- A non-empty list of class chars satisfies the second segment. -/
theorem segSecond_of (l : List Char) (hne : l ≠ []) (h : ∀ c ∈ l, isB36U c = true) :
    segSecond l = true := by
  cases l with
  | nil => exact absurd rfl hne
  | cons c cs =>
    simp only [segSecond, Bool.and_eq_true]
    exact ⟨h c (by simp), seg2Rest_all cs (fun c2 hc2 => h c2 (by simp [hc2]))⟩

/-- Class chars then a dash then a valid second segment pass the
first-segment tail matcher. -/
theorem segFirstRest_of (A B : List Char) (hA : ∀ c ∈ A, isB36U c = true)
    (hBne : B ≠ []) (hB : ∀ c ∈ B, isB36U c = true) :
    segFirstRest (A ++ '-' :: B) = true := by
  induction A with
  | nil =>
    show segFirstRest ('-' :: B) = true
    simp only [segFirstRest, if_pos rfl]
    exact segSecond_of B hBne hB
  | cons a as ih =>
    have ha : isB36U a = true := hA a (by simp)
    have hne : a ≠ '-' := by
      intro hq
      rw [hq] at ha
      exact absurd ha (by decide)
    show segFirstRest (a :: (as ++ '-' :: B)) = true
    simp only [segFirstRest, if_neg hne, Bool.and_eq_true]
    exact ⟨ha, ih (fun c hc => hA c (by simp [hc]))⟩

/-- A well-formed two-segment tail passes the first-segment matcher. -/
theorem segFirst_of (A B : List Char) (hAne : A ≠ [])
    (hA : ∀ c ∈ A, isB36U c = true) (hBne : B ≠ [])
    (hB : ∀ c ∈ B, isB36U c = true) :
    segFirst (A ++ '-' :: B) = true := by
  cases A with
  | nil => exact absurd rfl hAne
  | cons a as =>
    simp only [List.cons_append, segFirst, Bool.and_eq_true]
    exact ⟨hA a (by simp), segFirstRest_of as B (fun c hc => hA c (by simp [hc])) hBne hB⟩

/-- A generated submission id always passes the admin format check, as
long as the random seed yields at least one base36 char. -/
theorem generateSubmissionId_ok (ts : Nat) (rand : List Char) (hne : rand ≠ [])
    (hmem : ∀ c ∈ rand, c ∈ base36Digits) :
    subIdOk (generateSubmissionId ts rand) = true := by
  unfold generateSubmissionId subIdOk
  have hdata : "SUB-".data = ['S', 'U', 'B', '-'] := rfl
  rw [hdata]
  simp only [List.map_append, List.map_cons]
  show segFirst ((natToBase36 ts).map Char.toUpper ++ '-' :: rand.map Char.toUpper) = true
  obtain ⟨h36ne, h36mem⟩ := natToBase36_spec ts
  apply segFirst_of
  · simpa using h36ne
  · intro c hc
    obtain ⟨c2, hc2, rfl⟩ := List.mem_map.mp hc
    exact base36_toUpper c2 (h36mem c2 hc2)
  · simpa using hne
  · intro c hc
    obtain ⟨c2, hc2, rfl⟩ := List.mem_map.mp hc
    exact base36_toUpper c2 (hmem c2 hc2)

/-- The rate-limit section only ever touches its rate-limit key. -/
theorem rateLimitSection_no_submission (gr : Except Unit (Option (List Int)))
    (now : Int) (ip : String) (pf : Bool) :
    ∀ e ∈ (rateLimitSection gr now (KVKey.ratelimit ip) pf).2, ∀ id,
      e ≠ KVEff.put (.submission id) ∧ e ≠ KVEff.del (.submission id) := by
  intro e he id
  cases gr with
  | error u =>
    simp [rateLimitSection] at he
    subst he
    exact ⟨by simp, by simp⟩
  | ok raw =>
    cases hc : rateLimitCore raw now <;> simp [rateLimitSection, hc] at he
    · subst he
      exact ⟨by simp, by simp⟩
    · rcases he with he | he <;> subst he <;> exact ⟨by simp, by simp⟩

/--
C10: when a submission accepted by the webhook carries neither
`contact_method` nor `contact_value`, no operation of the whole request
writes or deletes any submission-namespace key — yet the response is a
200 success carrying the freshly generated `SUB-` id, that id passes the
admin format check, and an authorized `getContact` against any store
without that key answers 404 not-found.
-/
theorem c10_no_contact_nothing_stored (env : WebEnv) (store : Store) (o : WebOra)
    (og : String) (ip ah qs : Option String) (ab : Option (Option String × Bool))
    (fd : FormData)
    (h : startsWithAny og (ALLOWED_ORIGINS ++ splitDevOrigins env.devOrigins) = true)
    (hrl : (rateLimitSection o.rlGet o.now (KVKey.ratelimit (ip.getD "unknown"))
      o.rlPutFails).1 = none)
    (hfd : fd.isEmpty = false)
    (hpriv : ∀ kv ∈ fd, kv.1 ∉ PRIVATE_FIELDS)
    (hloc : locationValidation fd o.validIds = none)
    (hdate : dateValidation fd o.dateParse o.now = none)
    (hurl : urlValidation fd o.urlOk = none)
    (hclass : (isNewLocationOf fd || isCheckOf fd) = true)
    (n : Int) (u : String) (hiss : o.issueResult = .ok (n, u))
    (hrandne : o.idRand ≠ []) (hrand : ∀ c ∈ o.idRand, c ∈ base36Digits) :
    (fetchModel env ⟨"/api/submit", "POST", some og, ip, ah, qs, ab, fd⟩ store o).status
      = 200 ∧
    (fetchModel env ⟨"/api/submit", "POST", some og, ip, ah, qs, ab, fd⟩ store o).body
      = .json (.obj [("success", .jbool true),
          ("submissionId", .str (generateSubmissionId o.idTs o.idRand)),
          ("issueNumber", .num n), ("issueUrl", .str u)]) ∧
    (∀ e ∈ (fetchModel env ⟨"/api/submit", "POST", some og, ip, ah, qs, ab, fd⟩
        store o).effects, ∀ id,
      e ≠ KVEff.put (.submission id) ∧ e ≠ KVEff.del (.submission id)) ∧
    subIdOk (generateSubmissionId o.idTs o.idRand) = true ∧
    (∀ store2 : Store,
      store2 (.submission (generateSubmissionId o.idTs o.idRand)) = none →
      (getContactInfo (some (generateSubmissionId o.idTs o.idRand)) store2
        o.auditSfx).1.status = 404) := by
  have hadm : listStartsWith "/api/submit".data "/admin/".data = false := by decide
  have hpriv2 : (partitionFields fd).2 = [] := by
    rw [partitionFields_eq]
    simp only [List.filter_eq_nil_iff]
    intro kv hkv
    simpa using hpriv kv hkv
  have hcond : (!isNewLocationOf fd && !isCheckOf fd) = false := by
    cases h1 : isNewLocationOf fd <;> cases h2 : isCheckOf fd <;>
      simp_all
  have hid := generateSubmissionId_ok o.idTs o.idRand hrandne hrand
  have hps : processSubmission ⟨"/api/submit", "POST", some og, ip, ah, qs, ab, fd⟩ o =
      ⟨200, .json (.obj [("success", .jbool true),
          ("submissionId", .str (generateSubmissionId o.idTs o.idRand)),
          ("issueNumber", .num n), ("issueUrl", .str u)]), [],
        some (createGitHubIssueReq (partitionFields fd).1
          (generateSubmissionId o.idTs o.idRand) none (isNewLocationOf fd) o.todayIso)⟩ := by
    simp [processSubmission, hfd, hloc, hdate, hurl, hcond, hpriv2, hiss, fdGet]
  refine ⟨?_, ?_, ?_, hid, ?_⟩
  · simp [fetchModel, hadm, h, hrl, hps]
  · simp [fetchModel, hadm, h, hrl, hps]
  · intro e he id
    have heff : (fetchModel env ⟨"/api/submit", "POST", some og, ip, ah, qs, ab, fd⟩
        store o).effects =
      (rateLimitSection o.rlGet o.now (KVKey.ratelimit (ip.getD "unknown"))
        o.rlPutFails).2 ++ [] := by
      simp [fetchModel, hadm, h, hrl, hps]
    rw [heff, List.append_nil] at he
    exact rateLimitSection_no_submission o.rlGet o.now (ip.getD "unknown")
      o.rlPutFails e he id
  · intro store2 hs2
    have hne2 : generateSubmissionId o.idTs o.idRand ≠ "" := by
      intro hq
      rw [hq] at hid
      exact absurd hid (by decide)
    simp [getContactInfo, hne2, hid, hs2]

/-- Witness for C10 at a concrete contactless new-location submission. -/
theorem c10_no_contact_nothing_stored_witness :
    (fetchModel ⟨none, none, none⟩
      ⟨"/api/submit", "POST", some "https://satoshiinberlin.github.io", none, none,
        none, none, [("name", "N"), ("address", "A"), ("category", "K")]⟩
      (fun _ => none)
      ⟨0, Except.ok none, false, [], fun _ => none, fun _ => true, 0, ['a'],
        "2024-01-01", "t", Except.ok (7, "u"), "x"⟩).status = 200 ∧
    subIdOk (generateSubmissionId 0 ['a']) = true := by
  have h := c10_no_contact_nothing_stored ⟨none, none, none⟩ (fun _ => none)
    ⟨0, Except.ok none, false, [], fun _ => none, fun _ => true, 0, ['a'],
      "2024-01-01", "t", Except.ok (7, "u"), "x"⟩
    "https://satoshiinberlin.github.io" none none none none
    [("name", "N"), ("address", "A"), ("category", "K")]
    (by decide) rfl (by decide) (by decide) rfl rfl rfl (by decide)
    7 "u" rfl (by decide) (by decide)
  exact ⟨h.1, h.2.2.2.1⟩

end S4D
